import Mathlib

/-
Shallow embedding of src/main.rs of the post_remove repository.

The program reads a tweet archive (a JSON array), filters it by a cutoff
date, and deletes each remaining post through an HTTP API, keeping a
checkpoint of the not-yet-resolved posts.  External collaborators are
modelled as data: the HTTP transport is an oracle (a list of attempts, one
per call made by the retry loop), the clock is an integer number of seconds,
and the checkpoint file is a list of JSON values carried through the state.
-/

/-- JSON values, modelling serde_json::Value.  Object fields keep insertion
order; key lookup takes the first matching field. -/
inductive Json where
  | null : Json
  | bool (b : Bool) : Json
  | num (n : Int) : Json
  | str (s : String) : Json
  | arr (elems : List Json) : Json
  | obj (fields : List (String × Json)) : Json

/-- Square-bracket indexing of serde_json::Value by a string key: returns the
field value for an object that has the key, and Null otherwise. -/
def Json.index : Json → String → Json
  | .obj fields, key =>
    match fields.find? (fun p => p.fst == key) with
    | some p => p.snd
    | none => .null
  | _, _ => .null

/-- serde_json::Value::as_str. -/
def Json.as_str : Json → Option String
  | .str s => some s
  | _ => none

/-- serde_json::Value::as_bool. -/
def Json.as_bool : Json → Option Bool
  | .bool b => some b
  | _ => none

/-- serde_json::Value::as_array. -/
def Json.as_array : Json → Option (List Json)
  | .arr elems => some elems
  | _ => none

/-- The comparison at line 163 of main.rs, x != serde_json::Value::Null,
which holds exactly when the value is not the Null constructor. -/
def Json.isNull : Json → Bool
  | .null => true
  | _ => false

/-- A calendar date, modelling chrono::NaiveDate as year, month and day.
chrono orders NaiveDate values chronologically, which for this
representation is the lexicographic order on (year, month, day). -/
structure NDate where
  year : Int
  month : Nat
  day : Nat
deriving DecidableEq, Repr

/-- The strict chronological order on dates used by the comparison
post_time < time at line 149 of main.rs. -/
def NDate.lt (a b : NDate) : Bool :=
  decide (a.year < b.year ∨ (a.year = b.year ∧
    (a.month < b.month ∨ (a.month = b.month ∧ a.day < b.day))))

/-- Splits a character list at every space, modelling str::split / the
tokenization that chrono applies to a "%a %b %d %H:%M:%S %z %Y" format
string (whose directives are separated by single spaces). -/
def splitSpaces : List Char → List Char → List String
  | [], acc => [String.mk acc.reverse]
  | c :: cs, acc =>
    if c = ' ' then String.mk acc.reverse :: splitSpaces cs []
    else splitSpaces cs (c :: acc)

/-- Value of one decimal digit character. -/
def digitVal? (c : Char) : Option Nat :=
  if '0' ≤ c ∧ c ≤ '9' then some (c.toNat - 48) else none

/-- Accumulates decimal digits; none on the first non-digit. -/
def digitsVal : List Char → Nat → Option Nat
  | [], acc => some acc
  | c :: cs, acc =>
    match digitVal? c with
    | some d => digitsVal cs (acc * 10 + d)
    | none => none

/-- Non-empty all-digit decimal parse, the shared core of the unsigned
integer parses below. -/
def strToNat? (s : String) : Option Nat :=
  match s.data with
  | [] => none
  | l => digitsVal l 0

/-- Month-name token of the archive timestamp format. -/
def monthNum : String → Option Nat
  | "Jan" => some 1
  | "Feb" => some 2
  | "Mar" => some 3
  | "Apr" => some 4
  | "May" => some 5
  | "Jun" => some 6
  | "Jul" => some 7
  | "Aug" => some 8
  | "Sep" => some 9
  | "Oct" => some 10
  | "Nov" => some 11
  | "Dec" => some 12
  | _ => none

/-- Models the external library call
chrono::NaiveDate::parse_from_str(s, "%a %b %d %H:%M:%S %z %Y")
at line 144 of main.rs.  A NaiveDate keeps only the date fields, so the
time-of-day and zone tokens are parsed positionally and discarded, exactly
as NaiveDate truncates them.  Simplification of the external library (not
of repository code): the day is range-checked 1..31 rather than against the
month length, and the weekday token is not cross-checked against the date;
no claim depends on which malformed strings are rejected. -/
def parseCreatedAt (s : String) : Option NDate :=
  match splitSpaces s.data [] with
  | [_wday, mon, day, _time, _tz, year] =>
    match monthNum mon, strToNat? day, strToNat? year with
    | some m, some d, some y =>
      if 1 ≤ d ∧ d ≤ 31 then some ⟨(y : Int), m, d⟩ else none
    | _, _, _ => none
  | _ => none

/-- Models str::parse::<u64> at lines 97 and 169 of main.rs: digits only,
rejecting values outside the u64 range.  (The optional leading plus sign
Rust accepts is not modelled; no claim involves one.) -/
def parseU64 (s : String) : Option Nat :=
  match strToNat? s with
  | some n => if n < 2 ^ 64 then some n else none
  | none => none

/-- Models str::parse::<i64> at line 103 of main.rs: an optional leading
minus sign, then digits, rejecting values outside the i64 range. -/
def parseI64 (s : String) : Option Int :=
  match (match s.data with
         | [] => none
         | ['-'] => none
         | '-' :: rest => (digitsVal rest 0).map (fun n => -(n : Int))
         | l => (digitsVal l 0).map (fun n => (n : Int))) with
  | some v => if -(2 ^ 63) ≤ v ∧ v < 2 ^ 63 then some v else none
  | none => none

/-- Validity domain of the external library call
chrono::DateTime::from_timestamp(ts, 0) at line 104 of main.rs, which
returns None outside the representable NaiveDate year range -262144 to
262143 (astronomical numbering, proleptic Gregorian).  The bounds are the
timestamps of -262144-01-01T00:00:00 and 262143-12-31T23:59:59: with
days-from-common-era dby(y) = 365(y-1) + floor((y-1)/4) - floor((y-1)/100)
+ floor((y-1)/400) counted in full years and 719163 the day number of
1970-01-01, the lower bound is (dby(-262144) + 1 - 719163) * 86400 =
-8334632851200 and the upper bound is (dby(262143) + 365 - 719163) * 86400
+ 86399 = 8210298412799 (year 262143 is not a leap year). -/
def fromTimestampValid (ts : Int) : Bool :=
  decide (-8334632851200 ≤ ts ∧ ts ≤ 8210298412799)

/-- The exit sites of main.rs that call std::process::exit, which
terminates the process WITHOUT running destructors (so the ProcessedValue
drop flush does not run on these paths). -/
inductive ExitReason where
  | createdAtNotFound : ExitReason
  | createdAtParseFailed : ExitReason
  | dataNotArray : ExitReason
  | idNotFound : ExitReason
  | idNotU64 : ExitReason
deriving DecidableEq, Repr

/-- The filter applied to the archive at lines 139 to 150 of main.rs:
keep each record whose tweet.created_at parses to a date strictly earlier
than the cutoff.  A record with a missing or unparsable created_at makes
the closure call std::process::exit, modelled as the error case; records
are examined in input order, so the first bad record decides the error. -/
def filterPosts (cutoff : NDate) : List Json → Except ExitReason (List Json)
  | [] => .ok []
  | t :: ts =>
    match ((t.index ("tweet")).index ("created_at")).as_str with
    | none => .error .createdAtNotFound
    | some s =>
      match parseCreatedAt s with
      | none => .error .createdAtParseFailed
      | some d =>
        match filterPosts cutoff ts with
        | .error e => .error e
        | .ok rest => .ok (if NDate.lt d cutoff then t :: rest else rest)

/-- The same keep-or-drop decision as filterPosts on one record, as a
boolean predicate (false also covers the records on which filterPosts
exits, which never coexist with an ok result). -/
def keepPost (cutoff : NDate) (t : Json) : Bool :=
  match ((t.index ("tweet")).index ("created_at")).as_str with
  | none => false
  | some s =>
    match parseCreatedAt s with
    | none => false
    | some d => NDate.lt d cutoff

/-- The ProcessedValue struct of main.rs lines 10 to 13: the in-memory
remaining work list plus the checkpoint file path. -/
structure ProcessedValue where
  data : List Json
  name : String

/-- ProcessedValue::process, main.rs lines 23 to 27: if the list is
non-empty, remove element 0; otherwise do nothing. -/
def ProcessedValue.process (pv : ProcessedValue) : ProcessedValue :=
  match pv.data with
  | [] => pv
  | _ :: rest => ProcessedValue.mk rest pv.name

/-- One HTTP response as seen by delete_task.  Header values are the
strings the to_str calls would return; body is the JSON-decoded payload,
with none modelling a body on which response.json() fails. -/
structure HttpResponse where
  status : Nat
  headers : List (String × String)
  body : Option Json

/-- ASCII lowering of one character, for header-name comparison. -/
def charLower (c : Char) : Char :=
  if 'A' ≤ c ∧ c ≤ 'Z' then Char.ofNat (c.toNat + 32) else c

/-- Case-insensitive ASCII string equality, as HeaderMap applies to header
names. -/
def eqCaseInsensitive (a b : String) : Bool :=
  a.data.map charLower == b.data.map charLower

/-- HeaderMap::get, which matches header names case-insensitively. -/
def getHeader (r : HttpResponse) (name : String) : Option String :=
  (r.headers.find? (fun p => eqCaseInsensitive p.fst name)).map (fun p => p.snd)

/-- StatusCode::is_success: the 2xx range. -/
def isSuccess (s : Nat) : Bool :=
  decide (200 ≤ s ∧ s ≤ 299)

/-- One call to delete_tweet as dictated by the transport oracle: either a
response arrived, or the request itself failed (reqwest::Error), on which
the expect at line 84 of main.rs panics. -/
inductive Attempt where
  | ok (resp : HttpResponse) : Attempt
  | transportErr : Attempt

/-- The panic sites of delete_task (and the expects feeding it), each of
which unwinds and therefore DOES run the ProcessedValue drop flush:
transportFailed is the expect at line 84, jsonDecodeFailed line 86,
deletedFieldMissing line 87, deleteNotConfirmed line 92, retryAfterNotU64
lines 96 to 97, resetNotI64 lines 102 to 103, invalidTimestamp the expect
at line 104 (DateTime::from_timestamp returns None outside the
representable range, see fromTimestampValid), negativeSleepDuration the
to_std unwrap at line 107 (chrono Duration::to_std errors on a negative
duration), unknown429 line 112, unexpectedStatus line 116. -/
inductive PanicReason where
  | transportFailed : PanicReason
  | jsonDecodeFailed : PanicReason
  | deletedFieldMissing : PanicReason
  | deleteNotConfirmed : PanicReason
  | retryAfterNotU64 : PanicReason
  | resetNotI64 : PanicReason
  | invalidTimestamp : PanicReason
  | negativeSleepDuration : PanicReason
  | unknown429 : PanicReason
  | unexpectedStatus (status : Nat) : PanicReason
deriving DecidableEq, Repr

/-- How one delete_task invocation ends: a normal return after a confirmed
deletion, a panic, or (a model artifact) the oracle ran out of responses
while the loop was still retrying. -/
inductive TaskOutcome where
  | deleted : TaskOutcome
  | panicked (reason : PanicReason) : TaskOutcome
  | stuck : TaskOutcome
deriving DecidableEq, Repr

/-- Result of delete_task: how it ended, plus the list of sleep durations
(in seconds, in order) performed for rate limiting. -/
structure TaskResult where
  outcome : TaskOutcome
  waits : List Int
deriving DecidableEq, Repr

/-- delete_task, main.rs lines 80 to 119.  The loop consumes one oracle
attempt per delete_tweet call; now is the value of Utc::now() in whole
seconds (line 106).  On a 2xx response the body must decode and contain a
boolean data.deleted that is true; on 429 the wait source is Retry-After,
then x-rate-limit-reset (first the from_timestamp expect panics on a
timestamp outside the representable chrono range, then the sleep of reset
minus now, where a negative difference makes the to_std unwrap panic),
then a panic for an unexplained 429; any other status panics.  The id
argument only feeds panic message formatting in the source. -/
def delete_task (i : Nat) (now : Int) : List Attempt → TaskResult
  | [] => ⟨.stuck, []⟩
  | .transportErr :: _ => ⟨.panicked .transportFailed, []⟩
  | .ok resp :: rest =>
    if isSuccess resp.status then
      match resp.body with
      | none => ⟨.panicked .jsonDecodeFailed, []⟩
      | some body =>
        match ((body.index ("data")).index ("deleted")).as_bool with
        | none => ⟨.panicked .deletedFieldMissing, []⟩
        | some true => ⟨.deleted, []⟩
        | some false => ⟨.panicked .deleteNotConfirmed, []⟩
    else if resp.status = 429 then
      match getHeader resp ("Retry-After") with
      | some s =>
        match parseU64 s with
        | none => ⟨.panicked .retryAfterNotU64, []⟩
        | some n =>
          let r := delete_task i now rest
          ⟨r.outcome, (n : Int) :: r.waits⟩
      | none =>
        match getHeader resp ("x-rate-limit-reset") with
        | some s =>
          match parseI64 s with
          | none => ⟨.panicked .resetNotI64, []⟩
          | some ts =>
            if fromTimestampValid ts then
              if ts - now < 0 then ⟨.panicked .negativeSleepDuration, []⟩
              else
                let r := delete_task i now rest
                ⟨r.outcome, (ts - now) :: r.waits⟩
            else ⟨.panicked .invalidTimestamp, []⟩
        | none => ⟨.panicked .unknown429, []⟩
    else ⟨.panicked (.unexpectedStatus resp.status), []⟩

/-- How the whole pipeline run ends.  completed: main returns Ok and the
ProcessedValue destructor flushes.  panicked: an unwind, which also runs
the destructor.  exited: std::process::exit from inside the loop (missing
or non-u64 id), which skips destructors.  stuck: model artifact, the
oracle ran out of responses. -/
inductive ExitKind where
  | completed : ExitKind
  | panicked (reason : PanicReason) : ExitKind
  | exited (reason : ExitReason) : ExitKind
  | stuck : ExitKind
deriving DecidableEq, Repr

/-- Final state of a pipeline run: how it ended, the in-memory remaining
list (ProcessedValue.data), the checkpoint file contents at that moment,
and one (queue, file) snapshot taken right after each process() call. -/
structure RunResult where
  kind : ExitKind
  queue : List Json
  file : List Json
  resolutions : List (List Json × List Json)

/-- What the head of the loop body does to one record, main.rs lines 161
to 174: skip a null payload, exit on a missing or non-u64 id, otherwise
run delete_task on the attempts the oracle provides for this record. -/
inductive StepAct where
  | skip : StepAct
  | exitNow (e : ExitReason) : StepAct
  | outcome (o : TaskOutcome) : StepAct

/-- Classifies one iteration of the for loop of main.rs for record t with
transport attempts att. -/
def stepOf (now : Int) (t : Json) (att : List Attempt) : StepAct :=
  if (t.index ("tweet")).isNull then .skip
  else
    match ((t.index ("tweet")).index ("id")).as_str with
    | none => .exitNow .idNotFound
    | some s =>
      match parseU64 s with
      | none => .exitNow .idNotU64
      | some i => .outcome (delete_task i now att).outcome

/-- The for loop of main.rs lines 161 to 178 together with the exit
semantics of the ProcessedValue destructor (lines 30 to 41).  The oracle
supplies one attempt list per record, consumed in lockstep with the
iteration.  The checkpoint file is NEVER written inside the loop; it is
overwritten with pv.data when the destructor runs, which happens on normal
return and on panic unwind but not on std::process::exit.  After each
successful deletion, process() drops the head of pv and a (queue, file)
snapshot is recorded; the 10 second pacing sleep changes no state and is
not recorded. -/
def runLoop (now : Int) :
    List Json → List (List Attempt) → ProcessedValue → List Json →
    List (List Json × List Json) → RunResult
  | [], _, pv, _, res => ⟨.completed, pv.data, pv.data, res.reverse⟩
  | t :: ts, oracle, pv, file, res =>
    match stepOf now t (oracle.headD []) with
    | .skip => runLoop now ts oracle.tail pv file res
    | .exitNow e => ⟨.exited e, pv.data, file, res.reverse⟩
    | .outcome .deleted =>
      runLoop now ts oracle.tail pv.process file ((pv.process.data, file) :: res)
    | .outcome (.panicked pr) => ⟨.panicked pr, pv.data, pv.data, res.reverse⟩
    | .outcome .stuck => ⟨.stuck, pv.data, file, res.reverse⟩

/-- main.rs lines 131 to 180 after credential loading: the archive must be
a JSON array (line 137), the array is filtered by the cutoff (both of
these exit, before the ProcessedValue exists, on failure), then the loop
runs with the ProcessedValue seeded with the filtered posts and the
checkpoint file (the archive file itself, path name) still holding the
original array. -/
def runMain (now : Int) (name : String) (archive : Json) (cutoff : NDate)
    (oracle : List (List Attempt)) : Except ExitReason RunResult :=
  match archive.as_array with
  | none => .error .dataNotArray
  | some data =>
    match filterPosts cutoff data with
    | .error e => .error e
    | .ok posts =>
      .ok (runLoop now posts oracle (ProcessedValue.mk posts name) data [])

/-- Archive record with payload, id "1", created 2001-01-01 (a Monday). -/
def post1 : Json :=
  Json.obj [(("tweet"), Json.obj [(("id"), Json.str ("1")),
    (("created_at"), Json.str ("Mon Jan 01 00:00:00 +0000 2001"))])]

/-- Archive record with a payload and a created_at but no id field. -/
def postNoId : Json :=
  Json.obj [(("tweet"), Json.obj [
    (("created_at"), Json.str ("Tue Jan 02 00:00:00 +0000 2001"))])]

/-- Archive record created 2021-01-01 (a Friday), after the test cutoff. -/
def postAfter : Json :=
  Json.obj [(("tweet"), Json.obj [(("id"), Json.str ("2")),
    (("created_at"), Json.str ("Fri Jan 01 00:00:00 +0000 2021"))])]

/-- Archive placeholder record whose nested payload is null. -/
def postNull : Json := Json.obj [(("tweet"), Json.null)]

/-- Test cutoff date. -/
def cutoff2020 : NDate := ⟨2020, 1, 1⟩

/-- A 200 response whose body confirms the deletion. -/
def respOk : HttpResponse :=
  ⟨200, [], some (Json.obj [(("data"), Json.obj [(("deleted"), Json.bool true)])])⟩

/-- A 200 response whose body carries data.deleted = false. -/
def respOkFalse : HttpResponse :=
  ⟨200, [], some (Json.obj [(("data"), Json.obj [(("deleted"), Json.bool false)])])⟩

/-- A bare 404 response. -/
def resp404 : HttpResponse := ⟨404, [], none⟩

/-- A 429 response with neither rate-limit header. -/
def resp429bare : HttpResponse := ⟨429, [], none⟩

/-- A 429 response with Retry-After: 30. -/
def resp429retry30 : HttpResponse := ⟨429, [(("Retry-After"), ("30"))], none⟩

/-- A 429 response with x-rate-limit-reset: 100. -/
def resp429reset100 : HttpResponse := ⟨429, [(("x-rate-limit-reset"), ("100"))], none⟩

/-- A 429 response whose x-rate-limit-reset fits in an i64 but lies far
outside the range DateTime::from_timestamp can represent. -/
def resp429resetHuge : HttpResponse :=
  ⟨429, [(("x-rate-limit-reset"), ("9000000000000000000"))], none⟩

/-- The id argument of delete_task only feeds message formatting in the
source, so the result does not depend on it. -/
lemma delete_task_id_irrel (atts : List Attempt) : ∀ (i j : Nat) (now : Int),
    delete_task i now atts = delete_task j now atts := by
  induction atts with
  | nil => intro i j now; rfl
  | cons a rest ih =>
    intro i j now
    cases a with
    | transportErr => rfl
    | ok resp =>
      simp only [delete_task]
      rw [ih i j now]

/-- Unfolding of delete_task on a 429 response whose Retry-After header
parses as a u64: sleep that many seconds and retry on the remaining
attempts. -/
lemma delete_task_429_retry_after (i : Nat) (now : Int) (resp : HttpResponse)
    (rest : List Attempt) (s : String) (n : Nat)
    (h429 : resp.status = 429)
    (hh : getHeader resp ("Retry-After") = some s)
    (hn : parseU64 s = some n) :
    delete_task i now (.ok resp :: rest) =
      ⟨(delete_task i now rest).outcome, (n : Int) :: (delete_task i now rest).waits⟩ := by
  have hsucc : isSuccess resp.status = false := by rw [h429]; rfl
  simp only [delete_task, hsucc, h429, hh, hn, if_false, if_pos rfl, Bool.false_eq_true,
    if_neg]
  rfl

/-- Unfolding of delete_task on a 429 response without Retry-After whose
x-rate-limit-reset parses, is representable for from_timestamp, and is
not in the past: sleep the difference and retry on the remaining
attempts. -/
lemma delete_task_429_reset_future (i : Nat) (now : Int) (resp : HttpResponse)
    (rest : List Attempt) (s : String) (ts : Int)
    (h429 : resp.status = 429)
    (hra : getHeader resp ("Retry-After") = none)
    (hrs : getHeader resp ("x-rate-limit-reset") = some s)
    (hts : parseI64 s = some ts)
    (hv : fromTimestampValid ts = true)
    (hge : now ≤ ts) :
    delete_task i now (.ok resp :: rest) =
      ⟨(delete_task i now rest).outcome, (ts - now) :: (delete_task i now rest).waits⟩ := by
  have hsucc : isSuccess resp.status = false := by rw [h429]; rfl
  have hneg : ¬ (ts - now < 0) := by omega
  simp only [delete_task, hsucc, h429, hra, hrs, hts, hv, Bool.false_eq_true, if_neg hneg]
  rfl

/-- Unfolding of delete_task on a 429 response without Retry-After whose
x-rate-limit-reset is representable for from_timestamp but strictly in
the past: the to_std unwrap on the negative duration panics. -/
lemma delete_task_429_reset_past (i : Nat) (now : Int) (resp : HttpResponse)
    (rest : List Attempt) (s : String) (ts : Int)
    (h429 : resp.status = 429)
    (hra : getHeader resp ("Retry-After") = none)
    (hrs : getHeader resp ("x-rate-limit-reset") = some s)
    (hts : parseI64 s = some ts)
    (hv : fromTimestampValid ts = true)
    (hlt : ts < now) :
    delete_task i now (.ok resp :: rest) = ⟨.panicked .negativeSleepDuration, []⟩ := by
  have hsucc : isSuccess resp.status = false := by rw [h429]; rfl
  have hneg : ts - now < 0 := by omega
  simp only [delete_task, hsucc, h429, hra, hrs, hts, hv, Bool.false_eq_true, if_pos hneg]
  rfl

/-- Unfolding of delete_task on a 429 response without Retry-After whose
x-rate-limit-reset parses as an i64 outside the range representable by
DateTime::from_timestamp: the expect at line 104 panics. -/
lemma delete_task_429_reset_invalid (i : Nat) (now : Int) (resp : HttpResponse)
    (rest : List Attempt) (s : String) (ts : Int)
    (h429 : resp.status = 429)
    (hra : getHeader resp ("Retry-After") = none)
    (hrs : getHeader resp ("x-rate-limit-reset") = some s)
    (hts : parseI64 s = some ts)
    (hv : fromTimestampValid ts = false) :
    delete_task i now (.ok resp :: rest) = ⟨.panicked .invalidTimestamp, []⟩ := by
  have hsucc : isSuccess resp.status = false := by rw [h429]; rfl
  simp only [delete_task, hsucc, h429, hra, hrs, hts, hv, Bool.false_eq_true]
  rfl

/-- Every resolution snapshot recorded by runLoop carries the file
contents the loop started with (beyond the accumulated ones): the loop
body never writes the checkpoint file. -/
lemma runLoop_res_file (now : Int) (items : List Json) :
    ∀ (oracle : List (List Attempt)) (pv : ProcessedValue) (file : List Json)
      (res : List (List Json × List Json)),
      ∀ p ∈ (runLoop now items oracle pv file res).resolutions, p.2 = file ∨ p ∈ res := by
  induction items with
  | nil =>
    intro oracle pv file res p hp
    simp only [runLoop] at hp
    exact Or.inr (List.mem_reverse.mp hp)
  | cons t ts ih =>
    intro oracle pv file res p hp
    simp only [runLoop] at hp
    cases hstep : stepOf now t (oracle.headD []) with
    | skip =>
      simp only [hstep] at hp
      exact ih _ _ _ _ p hp
    | exitNow e =>
      simp only [hstep] at hp
      exact Or.inr (List.mem_reverse.mp hp)
    | outcome o =>
      cases o with
      | deleted =>
        simp only [hstep] at hp
        rcases ih _ _ _ _ p hp with h | h
        · exact Or.inl h
        · rcases List.mem_cons.mp h with h1 | h1
          · exact Or.inl (by rw [h1])
          · exact Or.inr h1
      | panicked pr =>
        simp only [hstep] at hp
        exact Or.inr (List.mem_reverse.mp hp)
      | stuck =>
        simp only [hstep] at hp
        exact Or.inr (List.mem_reverse.mp hp)

/-- On the exit kinds that run the ProcessedValue destructor (normal
completion and panic unwind), the final file contents equal the remaining
in-memory queue. -/
lemma runLoop_drop_flush (now : Int) (items : List Json) :
    ∀ (oracle : List (List Attempt)) (pv : ProcessedValue) (file : List Json)
      (res : List (List Json × List Json)),
      ((runLoop now items oracle pv file res).kind = .completed ∨
       (∃ pr, (runLoop now items oracle pv file res).kind = .panicked pr)) →
      (runLoop now items oracle pv file res).file =
        (runLoop now items oracle pv file res).queue := by
  induction items with
  | nil => intro oracle pv file res _; rfl
  | cons t ts ih =>
    intro oracle pv file res h
    simp only [runLoop] at h ⊢
    cases hstep : stepOf now t (oracle.headD []) with
    | skip =>
      simp only [hstep] at h ⊢
      exact ih _ _ _ _ h
    | exitNow e =>
      simp only [hstep] at h
      rcases h with h | ⟨pr, h⟩ <;> simp at h
    | outcome o =>
      cases o with
      | deleted =>
        simp only [hstep] at h ⊢
        exact ih _ _ _ _ h
      | panicked pr => simp only [hstep]
      | stuck =>
        simp only [hstep] at h
        rcases h with h | ⟨pr, h⟩ <;> simp at h

/-- On a std::process::exit ending, the destructor does not run and the
file keeps the contents the loop started with. -/
lemma runLoop_exited_file (now : Int) (items : List Json) :
    ∀ (oracle : List (List Attempt)) (pv : ProcessedValue) (file : List Json)
      (res : List (List Json × List Json)) (e : ExitReason),
      (runLoop now items oracle pv file res).kind = .exited e →
      (runLoop now items oracle pv file res).file = file := by
  induction items with
  | nil => intro oracle pv file res e h; simp only [runLoop] at h; simp at h
  | cons t ts ih =>
    intro oracle pv file res e h
    simp only [runLoop] at h ⊢
    cases hstep : stepOf now t (oracle.headD []) with
    | skip =>
      simp only [hstep] at h ⊢
      exact ih _ _ _ _ _ h
    | exitNow e2 => simp only [hstep]
    | outcome o =>
      cases o with
      | deleted =>
        simp only [hstep] at h ⊢
        exact ih _ _ _ _ _ h
      | panicked pr => simp only [hstep] at h; simp at h
      | stuck => simp only [hstep]

/-- For a record with a non-null payload and a parsable u64 id, the loop
body runs delete_task on the attempts provided for this record. -/
lemma stepOf_valid_id (now : Int) (t : Json) (att : List Attempt) (s : String) (i : Nat)
    (hnn : (t.index ("tweet")).isNull = false)
    (hid : ((t.index ("tweet")).index ("id")).as_str = some s)
    (hu : parseU64 s = some i) :
    stepOf now t att = .outcome (delete_task i now att).outcome := by
  unfold stepOf
  rw [hnn]
  simp only [Bool.false_eq_true, if_false, hid, hu]

/-- One-step characterization of runLoop on a record with a valid id:
the queue is popped exactly when delete_task returns deleted, a panic
ends the run with the destructor flush, and the wait sleeps inside
delete_task touch no driver state. -/
lemma runLoop_step (now : Int) (t : Json) (ts : List Json) (oracle : List (List Attempt))
    (pv : ProcessedValue) (file : List Json) (res : List (List Json × List Json))
    (s : String) (i : Nat)
    (hnn : (t.index ("tweet")).isNull = false)
    (hid : ((t.index ("tweet")).index ("id")).as_str = some s)
    (hu : parseU64 s = some i) :
    runLoop now (t :: ts) oracle pv file res =
      match (delete_task i now (oracle.headD [])).outcome with
      | .deleted => runLoop now ts oracle.tail pv.process file ((pv.process.data, file) :: res)
      | .panicked pr => ⟨.panicked pr, pv.data, pv.data, res.reverse⟩
      | .stuck => ⟨.stuck, pv.data, file, res.reverse⟩ := by
  simp only [runLoop, stepOf_valid_id now t (oracle.headD []) s i hnn hid hu]
  cases (delete_task i now (oracle.headD [])).outcome <;> rfl

/-- Prepending a 429-with-Retry-After response to the attempts of the
first pending record changes nothing in the final driver state: the wait
leaves the queue, the checkpoint file and the resolution log untouched. -/
lemma runLoop_extra_429 (now : Int) (resp : HttpResponse) (s : String) (n : Nat)
    (h429 : resp.status = 429)
    (hh : getHeader resp ("Retry-After") = some s)
    (hn : parseU64 s = some n) :
    ∀ (items : List Json) (att : List Attempt) (os : List (List Attempt))
      (pv : ProcessedValue) (file : List Json) (res : List (List Json × List Json)),
      runLoop now items ((Attempt.ok resp :: att) :: os) pv file res =
        runLoop now items (att :: os) pv file res := by
  intro items att os pv file res
  cases items with
  | nil => rfl
  | cons t ts =>
    have hout : ∀ i : Nat, (delete_task i now (Attempt.ok resp :: att)).outcome =
        (delete_task i now att).outcome := by
      intro i
      rw [delete_task_429_retry_after i now resp att s n h429 hh hn]
    have hstep : stepOf now t (Attempt.ok resp :: att) = stepOf now t att := by
      unfold stepOf
      split
      · rfl
      · cases hid : ((t.index ("tweet")).index ("id")).as_str with
        | none => rfl
        | some s2 =>
          simp only
          cases hu : parseU64 s2 with
          | none => rfl
          | some i => simp only [hout]
    simp only [runLoop, List.headD, List.tail_cons, hstep]

/-- keepPost holds exactly when created_at is a string that parses to a
date strictly earlier than the cutoff. -/
lemma keepPost_iff (cutoff : NDate) (t : Json) :
    keepPost cutoff t = true ↔
      ∃ s d, ((t.index ("tweet")).index ("created_at")).as_str = some s ∧
        parseCreatedAt s = some d ∧ NDate.lt d cutoff = true := by
  unfold keepPost
  cases h1 : ((t.index ("tweet")).index ("created_at")).as_str with
  | none => simp
  | some s =>
    cases h2 : parseCreatedAt s with
    | none => simp [h2]
    | some d => simp [h2]

/-- When the filter reaches the end without exiting, its output is the
List.filter of the keep predicate over the input. -/
lemma filterPosts_ok_eq (cutoff : NDate) (data : List Json) :
    ∀ out, filterPosts cutoff data = .ok out → out = data.filter (keepPost cutoff) := by
  induction data with
  | nil =>
    intro out h
    simp only [filterPosts] at h
    cases h
    rfl
  | cons t ts ih =>
    intro out h
    simp only [filterPosts] at h
    cases h1 : ((t.index ("tweet")).index ("created_at")).as_str with
    | none => simp only [h1] at h; cases h
    | some s =>
      simp only [h1] at h
      cases h2 : parseCreatedAt s with
      | none => simp only [h2] at h; cases h
      | some d =>
        simp only [h2] at h
        cases h3 : filterPosts cutoff ts with
        | error e => simp only [h3] at h; cases h
        | ok rest =>
          simp only [h3] at h
          cases h
          have hr := ih rest h3
          have hk : keepPost cutoff t = NDate.lt d cutoff := by
            unfold keepPost
            simp only [h1, h2]
          simp only [List.filter, hk, hr]
          cases NDate.lt d cutoff <;> rfl

/-- Claim C1, counterexample: in the run over a one-record archive whose
single deletion succeeds, the resolution point records in-memory queue []
while the checkpoint file still holds the original archive [post1], so the
persisted checkpoint does not equal the remaining queue at that resolution
point: the checkpoint file is not overwritten when an item resolves. -/
theorem checkpoint_stale_at_resolution_cex :
    runMain 0 ("t.json") (Json.arr [post1]) cutoff2020 [[Attempt.ok respOk]] =
      .ok ⟨.completed, [], [], [([], [post1])]⟩ ∧
    ¬ (∀ p ∈ (RunResult.mk .completed [] [] [([], [post1])]).resolutions, p.2 = p.1) := by
  refine ⟨rfl, fun h => ?_⟩
  have h2 := h ([], [post1]) (List.mem_singleton_self _)
  exact absurd h2 (by simp)

/-- Claim C1 (amended): after each terminal resolution only the in-memory
queue is updated; every recorded resolution point still sees the initial
checkpoint file contents, and the persisted checkpoint comes to equal the
remaining queue only at process exit, when the ProcessedValue destructor
flushes (on normal completion or on panic unwind). -/
theorem checkpoint_written_only_on_drop (now : Int) (items : List Json)
    (oracle : List (List Attempt)) (pv : ProcessedValue) (file : List Json) :
    (∀ p ∈ (runLoop now items oracle pv file []).resolutions, p.2 = file) ∧
    (((runLoop now items oracle pv file []).kind = .completed ∨
      (∃ pr, (runLoop now items oracle pv file []).kind = .panicked pr)) →
     (runLoop now items oracle pv file []).file =
       (runLoop now items oracle pv file []).queue) := by
  constructor
  · intro p hp
    rcases runLoop_res_file now items oracle pv file [] p hp with h | h
    · exact h
    · cases h
  · exact runLoop_drop_flush now items oracle pv file []

/-- Witness for the amended C1 theorem at a concrete one-record run. -/
theorem checkpoint_written_only_on_drop_witness :
    (([], [post1]) : List Json × List Json).2 = [post1] ∧
    (runLoop 0 [post1] [[Attempt.ok respOk]] (ProcessedValue.mk [post1] ("t.json")) [post1] []).file =
      (runLoop 0 [post1] [[Attempt.ok respOk]] (ProcessedValue.mk [post1] ("t.json")) [post1] []).queue := by
  constructor
  · exact (checkpoint_written_only_on_drop 0 [post1] [[Attempt.ok respOk]]
      (ProcessedValue.mk [post1] ("t.json")) [post1]).1 ([], [post1]) (List.mem_singleton_self _)
  · exact (checkpoint_written_only_on_drop 0 [post1] [[Attempt.ok respOk]]
      (ProcessedValue.mk [post1] ("t.json")) [post1]).2 (Or.inl rfl)

/-- Claim C2, counterexample: a run that aborts through the missing-id
std::process::exit path (a fatal error raised while processing an item)
terminates with the checkpoint file still holding the original two-record
archive while the remaining queue is one record: the final flush did not
run on this exit path. -/
theorem flush_skipped_on_exit_path_cex :
    runMain 0 ("t.json") (Json.arr [post1, postNoId]) cutoff2020 [[Attempt.ok respOk]] =
      .ok ⟨.exited .idNotFound, [postNoId], [post1, postNoId], [([postNoId], [post1, postNoId])]⟩ ∧
    (RunResult.mk (.exited .idNotFound) [postNoId] [post1, postNoId]
      [([postNoId], [post1, postNoId])]).file ≠
    (RunResult.mk (.exited .idNotFound) [postNoId] [post1, postNoId]
      [([postNoId], [post1, postNoId])]).queue := by
  refine ⟨rfl, fun h => ?_⟩
  have h2 := congrArg List.length h
  simp at h2

/-- Claim C2 (amended): the final checkpoint flush runs on normal
completion and on every panic abort (the ProcessedValue destructor runs on
unwind), and on those paths the file equals the remaining queue; on the
std::process::exit paths (missing or non-u64 id) destructors are skipped
and the checkpoint file keeps its previous contents.  Cancellation is not
handled by the program at all (no signal handler exists), so an interrupt
likewise ends the process without a flush. -/
theorem final_flush_by_exit_kind (now : Int) (items : List Json)
    (oracle : List (List Attempt)) (pv : ProcessedValue) (file : List Json)
    (res : List (List Json × List Json)) :
    (((runLoop now items oracle pv file res).kind = .completed ∨
      (∃ pr, (runLoop now items oracle pv file res).kind = .panicked pr)) →
     (runLoop now items oracle pv file res).file =
       (runLoop now items oracle pv file res).queue) ∧
    (∀ e, (runLoop now items oracle pv file res).kind = .exited e →
     (runLoop now items oracle pv file res).file = file) :=
  ⟨runLoop_drop_flush now items oracle pv file res,
   fun e h => runLoop_exited_file now items oracle pv file res e h⟩

/-- Witness for the amended C2 theorem at a concrete panicking run. -/
theorem final_flush_by_exit_kind_witness :
    (runLoop 0 [post1] [[Attempt.ok resp404]] (ProcessedValue.mk [post1] ("t.json")) [post1] []).file =
      (runLoop 0 [post1] [[Attempt.ok resp404]] (ProcessedValue.mk [post1] ("t.json")) [post1] []).queue :=
  (final_flush_by_exit_kind 0 [post1] [[Attempt.ok resp404]]
    (ProcessedValue.mk [post1] ("t.json")) [post1] []).1
    (Or.inr ⟨.unexpectedStatus 404, rfl⟩)

/-- Claim C3, counterexample: a 429 response carrying neither a
Retry-After header nor a rate-limit-reset header makes delete_task panic
with the unknown-429 error, performing no wait and no retry — the
unexplained 429 is treated as fatal. -/
theorem unexplained_429_fatal_cex :
    delete_task 1 0 [Attempt.ok resp429bare] = ⟨.panicked .unknown429, []⟩ ∧
    (delete_task 1 0 [Attempt.ok resp429bare]).outcome ≠ .deleted ∧
    (delete_task 1 0 [Attempt.ok resp429bare]).waits = [] :=
  ⟨rfl, by decide, rfl⟩

/-- Claim C3 (amended): for every 429 response that carries neither a
Retry-After header nor an x-rate-limit-reset header, delete_task panics
(unknown 429 error) without waiting or retrying, aborting the run. -/
theorem unexplained_429_panics (i : Nat) (now : Int) (resp : HttpResponse)
    (rest : List Attempt)
    (h429 : resp.status = 429)
    (hra : getHeader resp ("Retry-After") = none)
    (hrs : getHeader resp ("x-rate-limit-reset") = none) :
    delete_task i now (.ok resp :: rest) = ⟨.panicked .unknown429, []⟩ := by
  have hsucc : isSuccess resp.status = false := by rw [h429]; rfl
  simp only [delete_task, hsucc, h429, hra, hrs, Bool.false_eq_true, if_false, if_pos rfl]
  rfl

/-- Witness for the amended C3 theorem at a concrete bare 429. -/
theorem unexplained_429_panics_witness :
    resp429bare.status = 429 ∧
    getHeader resp429bare ("Retry-After") = none ∧
    getHeader resp429bare ("x-rate-limit-reset") = none ∧
    delete_task 7 5 [Attempt.ok resp429bare] = ⟨.panicked .unknown429, []⟩ :=
  ⟨rfl, rfl, rfl, unexplained_429_panics 7 5 resp429bare [] rfl rfl rfl⟩

/-- Claim C4, counterexample: a 404 response makes the run end with a
panic (unexpected status 404); the item is NOT removed from the work queue
(it is still the whole queue at exit, and no resolution is recorded), and
the run does not continue. -/
theorem notfound_aborts_run_cex :
    runMain 0 ("t.json") (Json.arr [post1]) cutoff2020 [[Attempt.ok resp404]] =
      .ok ⟨.panicked (.unexpectedStatus 404), [post1], [post1], []⟩ ∧
    (delete_task 1 0 [Attempt.ok resp404]).outcome ≠ .deleted ∧
    ([post1] : List Json) ≠ [] :=
  ⟨rfl, by decide, by simp⟩

/-- Claim C4 (amended): a 404 response for an item makes delete_task
panic with unexpected-status 404, aborting the pipeline; the driver leaves
the item in the queue, records no resolution, and the item is still in the
checkpoint written by the destructor flush. -/
theorem notfound_panics (i : Nat) (now : Int) (resp : HttpResponse) (rest : List Attempt)
    (h404 : resp.status = 404) :
    delete_task i now (.ok resp :: rest) = ⟨.panicked (.unexpectedStatus 404), []⟩ ∧
    (∀ (t : Json) (ts : List Json) (oracle : List (List Attempt)) (pv : ProcessedValue)
       (file : List Json) (res : List (List Json × List Json)) (s : String) (j : Nat),
      (t.index ("tweet")).isNull = false →
      ((t.index ("tweet")).index ("id")).as_str = some s →
      parseU64 s = some j →
      oracle.headD [] = Attempt.ok resp :: rest →
      runLoop now (t :: ts) oracle pv file res =
        ⟨.panicked (.unexpectedStatus 404), pv.data, pv.data, res.reverse⟩) := by
  have hsucc : isSuccess resp.status = false := by rw [h404]; rfl
  have h429 : ¬ (resp.status = 429) := by rw [h404]; decide
  have hmain : ∀ k, delete_task k now (.ok resp :: rest) =
      ⟨.panicked (.unexpectedStatus 404), []⟩ := by
    intro k
    simp only [delete_task, hsucc, Bool.false_eq_true, if_false, if_neg h429]
    rw [h404]
  refine ⟨hmain i, ?_⟩
  intro t ts oracle pv file res s j hnn hid hu hor
  rw [runLoop_step now t ts oracle pv file res s j hnn hid hu, hor, hmain j]

/-- Witness for the amended C4 theorem at a concrete 404 run. -/
theorem notfound_panics_witness :
    resp404.status = 404 ∧
    delete_task 3 0 [Attempt.ok resp404] = ⟨.panicked (.unexpectedStatus 404), []⟩ ∧
    runLoop 0 [post1] [[Attempt.ok resp404]] (ProcessedValue.mk [post1] ("t.json")) [post1] [] =
      ⟨.panicked (.unexpectedStatus 404), [post1], [post1], []⟩ := by
  refine ⟨rfl, (notfound_panics 3 0 resp404 [] rfl).1, ?_⟩
  exact (notfound_panics 3 0 resp404 [] rfl).2 post1 [] [[Attempt.ok resp404]]
    (ProcessedValue.mk [post1] ("t.json")) [post1] [] ("1") 1 rfl rfl rfl rfl

/-- Claim C5: for every 429 response whose Retry-After header parses as a
u64 value n, delete_task sleeps exactly n seconds and then retries the
same item on the remaining attempts; and such a response prepended to the
first pending record changes no driver state at all — in particular the
item is not removed from the work queue during the wait, removal happening
only after delete_task returns its terminal outcome. -/
theorem retry_after_waits_exactly (i : Nat) (now : Int) (resp : HttpResponse)
    (rest : List Attempt) (s : String) (n : Nat)
    (h429 : resp.status = 429)
    (hh : getHeader resp ("Retry-After") = some s)
    (hn : parseU64 s = some n) :
    delete_task i now (.ok resp :: rest) =
      ⟨(delete_task i now rest).outcome, (n : Int) :: (delete_task i now rest).waits⟩ ∧
    (∀ (items : List Json) (att : List Attempt) (os : List (List Attempt))
       (pv : ProcessedValue) (file : List Json) (res : List (List Json × List Json)),
      runLoop now items ((Attempt.ok resp :: att) :: os) pv file res =
        runLoop now items (att :: os) pv file res) :=
  ⟨delete_task_429_retry_after i now resp rest s n h429 hh hn,
   fun items att os pv file res => runLoop_extra_429 now resp s n h429 hh hn items att os pv file res⟩

/-- Witness for the C5 theorem with Retry-After 30 on a concrete run. -/
theorem retry_after_waits_exactly_witness :
    resp429retry30.status = 429 ∧
    getHeader resp429retry30 ("Retry-After") = some ("30") ∧
    parseU64 ("30") = some 30 ∧
    delete_task 1 0 [Attempt.ok resp429retry30, Attempt.ok respOk] =
      ⟨(delete_task 1 0 [Attempt.ok respOk]).outcome,
        30 :: (delete_task 1 0 [Attempt.ok respOk]).waits⟩ ∧
    runLoop 0 [post1] [[Attempt.ok resp429retry30, Attempt.ok respOk]]
        (ProcessedValue.mk [post1] ("t.json")) [post1] [] =
      runLoop 0 [post1] [[Attempt.ok respOk]] (ProcessedValue.mk [post1] ("t.json")) [post1] [] := by
  refine ⟨rfl, rfl, rfl, ?_, ?_⟩
  · exact (retry_after_waits_exactly 1 0 resp429retry30 [Attempt.ok respOk]
      ("30") 30 rfl rfl rfl).1
  · exact (retry_after_waits_exactly 1 0 resp429retry30 [Attempt.ok respOk]
      ("30") 30 rfl rfl rfl).2 [post1] [Attempt.ok respOk] []
      (ProcessedValue.mk [post1] ("t.json")) [post1] []

/-- Claim C6, counterexample: with x-rate-limit-reset = 100 and current
time 200 (reset strictly before now), delete_task panics on the negative
duration instead of waiting zero and retrying; the same oracle succeeds
when the current time is 50, isolating the failure to the past reset. -/
theorem reset_in_past_fails_cex :
    delete_task 1 200 [Attempt.ok resp429reset100, Attempt.ok respOk] =
      ⟨.panicked .negativeSleepDuration, []⟩ ∧
    (delete_task 1 200 [Attempt.ok resp429reset100, Attempt.ok respOk]).outcome ≠ .deleted ∧
    delete_task 1 50 [Attempt.ok resp429reset100, Attempt.ok respOk] = ⟨.deleted, [50]⟩ :=
  ⟨rfl, by decide, rfl⟩

/-- Claim C6 (amended): on a 429 response without Retry-After whose
x-rate-limit-reset parses as a timestamp ts, when ts is representable by
DateTime::from_timestamp (within about 262,000 years of the common era),
delete_task waits ts minus now and retries when ts is at or after now,
but panics (the to_std unwrap on a negative chrono duration) when ts is
strictly before now; when ts is outside the representable range, the
from_timestamp expect panics (invalid timestamp). -/
theorem reset_wait_or_panic (i : Nat) (now : Int) (resp : HttpResponse) (rest : List Attempt)
    (s : String) (ts : Int)
    (h429 : resp.status = 429)
    (hra : getHeader resp ("Retry-After") = none)
    (hrs : getHeader resp ("x-rate-limit-reset") = some s)
    (hts : parseI64 s = some ts) :
    (fromTimestampValid ts = true → now ≤ ts → delete_task i now (.ok resp :: rest) =
      ⟨(delete_task i now rest).outcome, (ts - now) :: (delete_task i now rest).waits⟩) ∧
    (fromTimestampValid ts = true → ts < now →
      delete_task i now (.ok resp :: rest) = ⟨.panicked .negativeSleepDuration, []⟩) ∧
    (fromTimestampValid ts = false →
      delete_task i now (.ok resp :: rest) = ⟨.panicked .invalidTimestamp, []⟩) :=
  ⟨fun hv hge => delete_task_429_reset_future i now resp rest s ts h429 hra hrs hts hv hge,
   fun hv hlt => delete_task_429_reset_past i now resp rest s ts h429 hra hrs hts hv hlt,
   fun hv => delete_task_429_reset_invalid i now resp rest s ts h429 hra hrs hts hv⟩

/-- Witness for the amended C6 theorem: reset 100 at time 50 waits 50 and
retries, and an i64 reset far outside the representable chrono range
panics on the from_timestamp expect. -/
theorem reset_wait_or_panic_witness :
    resp429reset100.status = 429 ∧
    parseI64 ("100") = some 100 ∧ fromTimestampValid 100 = true ∧ (50 : Int) ≤ 100 ∧
    delete_task 1 50 [Attempt.ok resp429reset100, Attempt.ok respOk] =
      ⟨(delete_task 1 50 [Attempt.ok respOk]).outcome,
        50 :: (delete_task 1 50 [Attempt.ok respOk]).waits⟩ ∧
    parseI64 ("9000000000000000000") = some 9000000000000000000 ∧
    fromTimestampValid 9000000000000000000 = false ∧
    delete_task 1 50 [Attempt.ok resp429resetHuge, Attempt.ok respOk] =
      ⟨.panicked .invalidTimestamp, []⟩ := by
  refine ⟨rfl, rfl, rfl, by decide, ?_, rfl, rfl, ?_⟩
  · exact (reset_wait_or_panic 1 50 resp429reset100 [Attempt.ok respOk]
      ("100") 100 rfl rfl rfl rfl).1 rfl (by decide)
  · exact (reset_wait_or_panic 1 50 resp429resetHuge [Attempt.ok respOk]
      ("9000000000000000000") 9000000000000000000 rfl rfl rfl rfl).2.2 rfl

/-- Claim C7: whenever the filter completes without exiting, its output
is exactly the List.filter of the input keeping the records whose
tweet.created_at parses to a date strictly earlier than the cutoff (the
only direction the program implements); the output is a sublist of the
input, hence preserves input order, and the input itself is untouched (the
filter is a pure function of it). -/
theorem filter_before_correct (data : List Json) (cutoff : NDate) (out : List Json)
    (h : filterPosts cutoff data = .ok out) :
    out = data.filter (keepPost cutoff) ∧
    List.Sublist out data ∧
    (∀ t, t ∈ out ↔ t ∈ data ∧ ∃ s d,
      ((t.index ("tweet")).index ("created_at")).as_str = some s ∧
      parseCreatedAt s = some d ∧ NDate.lt d cutoff = true) := by
  have he := filterPosts_ok_eq cutoff data out h
  refine ⟨he, ?_, ?_⟩
  · rw [he]; exact List.filter_sublist data
  · intro t
    rw [he, List.mem_filter, keepPost_iff]

/-- Witness for the C7 theorem on a concrete two-record archive. -/
theorem filter_before_correct_witness :
    filterPosts cutoff2020 [post1, postAfter] = .ok [post1] ∧
    [post1] = List.filter (keepPost cutoff2020) [post1, postAfter] :=
  ⟨rfl, (filter_before_correct [post1, postAfter] cutoff2020 [post1] rfl).1⟩

/-- Claim C8, code behavior at the failing input: a record whose nested
payload is null reaches the filter closure, whose tweet.created_at lookup
yields Null, as_str returns none, and the program calls
std::process::exit — it terminates instead of skipping the record.  The
null-payload skip check in the main loop (main.rs line 163) is
unreachable, since every record surviving the filter has an object
payload; the claim describes that evident intent, which the filter
contradicts. -/
theorem null_payload_record_aborts :
    filterPosts cutoff2020 [postNull] = .error .createdAtNotFound ∧
    filterPosts cutoff2020 [post1, postNull] = .error .createdAtNotFound ∧
    runMain 0 ("t.json") (Json.arr [post1, postNull]) cutoff2020 [[Attempt.ok respOk]] =
      .error .createdAtNotFound :=
  ⟨rfl, rfl, rfl⟩

/-- Claim C9: on a 2xx response the body must decode and contain a
boolean data.deleted; a missing or non-boolean field panics (expect), a
false value panics, and only true yields the terminal deleted outcome —
and whenever delete_task ends in a panic the driver leaves the queue
unchanged, so a 2xx status alone never removes the item. -/
theorem success_needs_deleted_true (i : Nat) (now : Int) (resp : HttpResponse)
    (rest : List Attempt) (hs : isSuccess resp.status = true) :
    (resp.body = none →
      delete_task i now (.ok resp :: rest) = ⟨.panicked .jsonDecodeFailed, []⟩) ∧
    (∀ b, resp.body = some b →
      ((b.index ("data")).index ("deleted")).as_bool = none →
      delete_task i now (.ok resp :: rest) = ⟨.panicked .deletedFieldMissing, []⟩) ∧
    (∀ b, resp.body = some b →
      ((b.index ("data")).index ("deleted")).as_bool = some false →
      delete_task i now (.ok resp :: rest) = ⟨.panicked .deleteNotConfirmed, []⟩) ∧
    (∀ b, resp.body = some b →
      ((b.index ("data")).index ("deleted")).as_bool = some true →
      delete_task i now (.ok resp :: rest) = ⟨.deleted, []⟩) ∧
    (∀ pr (t : Json) (ts : List Json) (oracle : List (List Attempt)) (pv : ProcessedValue)
       (file : List Json) (res : List (List Json × List Json)) (s : String) (j : Nat),
      (delete_task i now (.ok resp :: rest)).outcome = .panicked pr →
      (t.index ("tweet")).isNull = false →
      ((t.index ("tweet")).index ("id")).as_str = some s →
      parseU64 s = some j →
      oracle.headD [] = Attempt.ok resp :: rest →
      runLoop now (t :: ts) oracle pv file res =
        ⟨.panicked pr, pv.data, pv.data, res.reverse⟩) := by
  have hunfold : delete_task i now (.ok resp :: rest) =
      (match resp.body with
       | none => ⟨.panicked .jsonDecodeFailed, []⟩
       | some body =>
         match ((body.index ("data")).index ("deleted")).as_bool with
         | none => ⟨.panicked .deletedFieldMissing, []⟩
         | some true => ⟨.deleted, []⟩
         | some false => ⟨.panicked .deleteNotConfirmed, []⟩) := by
    simp only [delete_task, hs, if_pos rfl]
    rfl
  refine ⟨?_, ?_, ?_, ?_, ?_⟩
  · intro hb; rw [hunfold, hb]
  · intro b hb hbool; rw [hunfold, hb]; simp only [hbool]
  · intro b hb hbool; rw [hunfold, hb]; simp only [hbool]
  · intro b hb hbool; rw [hunfold, hb]; simp only [hbool]
  · intro pr t ts oracle pv file res s j hpan hnn hid hu hor
    rw [runLoop_step now t ts oracle pv file res s j hnn hid hu, hor,
      delete_task_id_irrel (Attempt.ok resp :: rest) j i now, hpan]

/-- Witness for the C9 theorem at concrete confirmed and unconfirmed
2xx responses. -/
theorem success_needs_deleted_true_witness :
    isSuccess 200 = true ∧
    delete_task 1 0 [Attempt.ok respOk] = ⟨.deleted, []⟩ ∧
    delete_task 1 0 [Attempt.ok respOkFalse] = ⟨.panicked .deleteNotConfirmed, []⟩ := by
  refine ⟨rfl, ?_, ?_⟩
  · exact (success_needs_deleted_true 1 0 respOk [] rfl).2.2.2.1 _ rfl rfl
  · exact (success_needs_deleted_true 1 0 respOkFalse [] rfl).2.2.1 _ rfl rfl

/-- Claim C10: ProcessedValue::process is a total function equal to
dropping the head of the stored list: it removes exactly the head when the
list is non-empty, leaves the value unchanged when empty, never changes
the name, shrinks the length by at most one, and the result is a sublist
of the original, so the remaining elements are never reordered. -/
theorem process_removes_head_only (pv : ProcessedValue) :
    (pv.process).data = pv.data.tail ∧
    (pv.process).name = pv.name ∧
    pv.data.length ≤ (pv.process).data.length + 1 ∧
    List.Sublist (pv.process).data pv.data ∧
    (pv.data = [] → pv.process = pv) ∧
    (∀ x xs, pv.data = x :: xs → (pv.process).data = xs) := by
  cases pv with
  | mk d nm =>
    cases d with
    | nil =>
      refine ⟨rfl, rfl, by simp, ?_, fun _ => rfl, ?_⟩
      · exact List.nil_sublist _
      · intro x xs h; cases h
    | cons x xs =>
      refine ⟨rfl, rfl, ?_, ?_, ?_, ?_⟩
      · simp [ProcessedValue.process]
      · exact List.sublist_cons_self x xs
      · intro h; cases h
      · intro x2 xs2 h
        injection h with h1 h2

/-- Witness for the C10 theorem at a concrete two-element state. -/
theorem process_removes_head_only_witness :
    (ProcessedValue.mk [Json.null, Json.bool true] ("t.json")).data =
      Json.null :: [Json.bool true] ∧
    ((ProcessedValue.mk [Json.null, Json.bool true] ("t.json")).process).data =
      [Json.bool true] :=
  ⟨rfl, (process_removes_head_only (ProcessedValue.mk [Json.null, Json.bool true]
    ("t.json"))).2.2.2.2.2 Json.null [Json.bool true] rfl⟩
